import Mathlib

/-!
Shallow embedding of the JavaScript snippets of the `interview_on_js`
repository, and proofs of the specification's claims about them.

The repository consists of independent teaching scripts; the embedded parts
are:
* `Function.prototype.mybind` from `Core js Fumdamental/script.js`;
* the always-rejecting `Promise` `sub` from `AsyncPromisse/asyncPromise.js`;
* the `Client` class and the `this.name = "sarah"` global write from the
  `this`-keyword section of `AsyncPromisse/asyncPromise.js`;
* the `Array.prototype.find` / `findIndex` and `Array.prototype.flat`
  demonstrations from the array-methods snippet;
* a per-file model of global-variable accesses, for the frame and
  independence claims.

JavaScript numbers are modelled as `Int`: every numeric literal occurring in
the repository is an integer and no arithmetic that could leave the integers
is performed.
-/

/-- JavaScript values, as far as the snippets need them: `undefined`, `null`,
booleans, (integer) numbers, strings, plain objects identified by an id, and
the global object. -/
inductive JsValue where
  | undef
  | nullv
  | bool (b : Bool)
  | num (n : Int)
  | str (s : String)
  | obj (id : Nat)
  | globalObj
deriving DecidableEq

/-- The global bindings the repository's scripts ever touch: the implicit
global `params` created by `mybind` (holding a JavaScript array, i.e. a list
of values), and the global `name` written by `this.name = "sarah"` in the
`this`-keyword section. `none` means the binding does not exist yet /
was never written. -/
structure Globals where
  params : Option (List JsValue)
  name : Option JsValue
deriving DecidableEq

/-- Sloppy-mode `this` resolution performed when a function is entered via
`Function.prototype.call`: `undefined` and `null` are replaced by the global
object; an object receiver is passed through unchanged. (Primitive receivers
would be boxed into wrapper objects; no snippet ever passes one, and the
claims quantify over object receivers only.) -/
def coerceThis : JsValue → JsValue
  | .undef => .globalObj
  | .nullv => .globalObj
  | v => v

/-- A call of the target function: the `this` value it is entered with and
the argument list it receives. -/
structure CallEvent where
  thisVal : JsValue
  args : List JsValue
deriving DecidableEq

/-- The closure returned by `mybind`: `return function () { console.log(args[0]);
obj.call(args[0]) }`. It captures the rest parameter `args` of the `mybind`
call (and the target function `obj`, which stays abstract: invocation is
phrased as the list of calls made to it). -/
structure MybindClosure where
  capturedArgs : List JsValue
deriving DecidableEq

/-- The body of `Function.prototype.mybind` from the source:

    let obj = this;
    params = args.slice(1);
    console.log(params); console.log(typeof (params));
    return function () { ... }

`params = args.slice(1)` is an assignment to an undeclared name; in sloppy
mode it creates (or overwrites) the global binding `params` with the array
`args.slice(1)`. The function returns the closure capturing `args`.
No step of this body can throw in sloppy mode, so the embedding is a total
function. -/
def mybind (args : List JsValue) (g : Globals) : MybindClosure × Globals :=
  (⟨args⟩, { g with params := some (args.drop 1) })

/-- Invoking the closure returned by `mybind` with some `this` value, some
call-time arguments, and an abstract return value `retF` of the target for
the call it makes: the body `console.log(args[0]); obj.call(args[0])` logs,
calls the target exactly once with `this` resolved from `args[0]`
(`undefined` when the captured argument list is empty) and an empty argument
list, discards the target's result, and returns `undefined`. The closure's
own `this` and arguments are never read. This observation records the calls
made to the target and the return value; the console output the closure
itself emits is part of `invokeMybindClosureFull` below. -/
def invokeMybindClosure (c : MybindClosure) (_thisV : JsValue)
    (_callArgs : List JsValue) (_retF : JsValue) : List CallEvent × JsValue :=
  ([⟨coerceThis (c.capturedArgs.headD .undef), []⟩], .undef)

/-- Modelled from the spec, for the refinement comparison with the native
`Function.prototype.bind` (which is host functionality, not code of this
repository): the bound function calls the target exactly once with `this`
resolved from the bound receiver, the bind-time extra arguments followed by
the call-time arguments, and returns the target's result `retF`. -/
def nativeBindInvoke (r : JsValue) (extras : List JsValue) (_thisV : JsValue)
    (callArgs : List JsValue) (retF : JsValue) : List CallEvent × JsValue :=
  ([⟨coerceThis r, extras ++ callArgs⟩], retF)

/-- Full observable behaviour of invoking the closure returned by `mybind`:
the console output the closure's own body emits, the calls made to the
target, and the return value. The body is `console.log(args[0]);
obj.call(args[0])`, so every invocation first prints the captured receiver
`args[0]` (the raw captured value), then makes its single argument-less call
and returns `undefined`. Output the target itself may print during its call
is a function of the call event and is compared through the call-event
component, not duplicated here. -/
def invokeMybindClosureFull (c : MybindClosure) (_thisV : JsValue)
    (_callArgs : List JsValue) (_retF : JsValue) :
    List JsValue × List CallEvent × JsValue :=
  ([c.capturedArgs.headD .undef],
    [⟨coerceThis (c.capturedArgs.headD .undef), []⟩], .undef)

/-- Modelled from the spec, the full-observation counterpart of
`nativeBindInvoke`: the native bound function's own body emits no console
output of its own — it only calls the target with the bound receiver and the
bind-time extras followed by the call-time arguments, and returns the
target's result. -/
def nativeBindInvokeFull (r : JsValue) (extras : List JsValue)
    (_thisV : JsValue) (callArgs : List JsValue) (retF : JsValue) :
    List JsValue × List CallEvent × JsValue :=
  ([], [⟨coerceThis r, extras ++ callArgs⟩], retF)

/-- Statement kinds, enough to record the body of `mybind` from the source.
`condBranch` stands for any conditional construct (`if`/`else`, ternary,
`switch`); it does not occur in `mybind`. -/
inductive StmtKind where
  | letDecl
  | globalAssign
  | logCall
  | ret
  | condBranch
deriving DecidableEq

/-- The statement list of the body of `Function.prototype.mybind`, read off
the source in order: `let obj = this`, `params = args.slice(1)`,
`console.log(params)`, `console.log(typeof (params))`,
`return function () {...}`. -/
def mybindBody : List StmtKind :=
  [.letDecl, .globalAssign, .logCall, .logCall, .ret]

/-- The object literal `name1` of `Core js Fumdamental/script.js`
(`{firstName: "Pijush", lastName: "Ray mondal"}`), the receiver used by the
demo calls; modelled as object id 1. -/
def name1 : JsValue := .obj 1

/-- claim C1: the function returned by `f.mybind(r, ...extraArgs)`, invoked
with any `this` value and any call-time arguments, calls the original
function exactly once, with `this` set to the captured receiver `r`
(here an object `.obj id`). -/
theorem mybind_calls_target_once_with_receiver (id : Nat)
    (extras : List JsValue) (g : Globals) (thisV : JsValue)
    (callArgs : List JsValue) (retF : JsValue) :
    (invokeMybindClosure (mybind (.obj id :: extras) g).1 thisV callArgs
        retF).1 = [⟨.obj id, []⟩] := by
  rfl

/-- claim C2: for every bind-time argument list, `this` value and call-time
arguments, the closure returned by `mybind` makes exactly one call to the
target and that call carries an empty argument list: the bind-time extras
are discarded and call-time arguments are not forwarded. -/
theorem mybind_forwards_no_arguments (bindArgs : List JsValue) (g : Globals)
    (thisV : JsValue) (callArgs : List JsValue) (retF : JsValue) :
    ((invokeMybindClosure (mybind bindArgs g).1 thisV callArgs
        retF).1).map CallEvent.args = [[]] := by
  rfl

/-- claim C3, counterexample: at the repository's own call
`printName.mybind(name1, "joynager")`, invoking the returned function is not
observably equivalent to invoking `printName.bind(name1, "joynager")`:
`mybind` makes the call with no arguments while the native bound function
forwards the extra argument `"joynager"`. -/
theorem mybind_not_native_bind :
    decide
      (invokeMybindClosure (mybind [name1, .str "joynager"] ⟨none, none⟩).1
          .undef [] .undef =
        nativeBindInvoke name1 [.str "joynager"] .undef [] .undef) = false := by
  decide

/-- claim C3, amended: the function returned by `f.mybind(r, ...extras)`
agrees with the native `f.bind(r, ...extras)` on the receiver binding only.
Its body `console.log(args[0]); obj.call(args[0])` prints the captured
receiver to the console on every invocation, while the native bound
function emits no output of its own, so the console outputs never coincide
and the two invocations are never observably equivalent. The remaining
observable behaviour — the calls made to the target and the return value —
agrees exactly when there are no bind-time extras, no call-time arguments,
and the target's call returns `undefined` (`mybind` forwards no arguments
and always returns `undefined`). In addition the `mybind` call itself writes
the extras into the implicit global `params`, which the native `bind` never
does. -/
theorem mybind_never_equivalent_to_native_bind (r : JsValue)
    (extras : List JsValue) (g : Globals) (thisV : JsValue)
    (callArgs : List JsValue) (retF : JsValue) :
    (invokeMybindClosureFull (mybind (r :: extras) g).1 thisV callArgs
        retF).1 = [r] ∧
      (nativeBindInvokeFull r extras thisV callArgs retF).1 = [] ∧
      decide ((invokeMybindClosureFull (mybind (r :: extras) g).1 thisV
            callArgs retF).1 =
          (nativeBindInvokeFull r extras thisV callArgs retF).1) = false ∧
      ((invokeMybindClosureFull (mybind (r :: extras) g).1 thisV callArgs
            retF).2 =
          (nativeBindInvokeFull r extras thisV callArgs retF).2
        ↔ extras = [] ∧ callArgs = [] ∧ retF = .undef) ∧
      (mybind (r :: extras) g).2.params = some extras := by
  refine ⟨rfl, rfl, rfl, ?_, rfl⟩
  simp only [invokeMybindClosureFull, mybind, nativeBindInvokeFull,
    Prod.mk.injEq, List.cons.injEq, CallEvent.mk.injEq, List.headD_cons,
    and_true, eq_comm (b := retF)]
  constructor
  · rintro ⟨⟨-, h⟩, hr⟩
    rcases List.append_eq_nil.mp h.symm with ⟨he, hc⟩
    exact ⟨he, hc, hr⟩
  · rintro ⟨he, hc, hr⟩
    subst he; subst hc; subst hr
    simp

/-- Truthiness of a JavaScript value (`ToBoolean`): `undefined`, `null`,
`false`, `0` and the empty string are falsy, objects are truthy. (`NaN` is
also falsy; it has no counterpart in the integer model and never occurs in
the snippets.) -/
def jsTruthy : JsValue → Bool
  | .undef => false
  | .nullv => false
  | .bool b => b
  | .num n => n != 0
  | .str s => s != ""
  | .obj _ => true
  | .globalObj => true

/-- How the single promise of `AsyncPromisse/asyncPromise.js` settles. -/
inductive PromiseOutcome where
  | resolvedWith (v : JsValue)
  | rejectedWith (errMsg : String)
deriving DecidableEq

/-- The executor body of the promise `sub`, run inside
`setTimeout(..., 3000)`:

    const result = 0;
    if (result) resolve("promise met succesfully");
    else reject(new Error("why't promise succesfull!"))

(The 3000 ms delay orders the settlement after the synchronous log
statements; it does not affect which branch is taken.) -/
def subOutcome : PromiseOutcome :=
  let result : JsValue := .num 0
  if jsTruthy result then .resolvedWith (.str "promise met succesfully")
  else .rejectedWith "why\x27t promise succesfull!"

/-- Which callback of `sub.then((res) => ...).catch((err) => ...)` runs. -/
inductive HandlerRun where
  | thenHandler (v : JsValue)
  | catchHandler (errMsg : String)
deriving DecidableEq

/-- Dispatch of a settled promise to the chained handlers: the `then`
callback runs on fulfilment with the value, the `catch` callback on
rejection with the error. -/
def subHandler : PromiseOutcome → HandlerRun
  | .resolvedWith v => .thenHandler v
  | .rejectedWith m => .catchHandler m

/-- claim C4: the promise `sub` always takes the rejection branch: the
hardcoded `result = 0` is falsy, so `resolve` is never called, the promise
rejects with the error message of `Error("why't promise succesfull!")`, and
the chained handlers run the `.catch` callback with that error, never the
`.then` callback. -/
theorem sub_always_rejects :
    subOutcome = .rejectedWith "why\x27t promise succesfull!" ∧
      subHandler subOutcome = .catchHandler "why\x27t promise succesfull!" := by
  constructor <;> rfl

/-- claim C5: `mybind` is a single conditional-free code path with no error
handling: its body contains no conditional statement; for every argument
list it returns the closure value (a function) after the sloppy-mode global
write, and even on the empty argument list — where `args[0]` is `undefined`
— nothing throws: the later invocation simply resolves `this` to the global
object and still makes its single argument-less call. -/
theorem mybind_conditional_free_total :
    mybindBody.count .condBranch = 0 ∧
      (∀ (args : List JsValue) (g : Globals),
        (mybind args g).1 = MybindClosure.mk args) ∧
      (∀ (g : Globals) (thisV : JsValue) (callArgs : List JsValue)
        (retF : JsValue),
        invokeMybindClosure (mybind [] g).1 thisV callArgs retF =
          ([⟨.globalObj, []⟩], .undef)) :=
  ⟨rfl, fun _ _ => rfl, fun _ _ _ _ => rfl⟩

/-- Global effects of evaluating `Core js Fumdamental/script.js` top to
bottom: the `let` declarations (`name1`, `printName`, `printMyName`,
`printMyName2`) are script-locals; `printName.bind(name1)` and the call of
its result touch no global; the call `printName.mybind(name1, "joynager")`
executes `params = args.slice(1)`, creating the implicit global `params`;
invoking the returned closure writes no global. -/
def scriptJsRun (g : Globals) : Globals :=
  (mybind [name1, .str "joynager"] g).2

/-- Global effects of evaluating `AsyncPromisse/asyncPromise.js` (including
its `this`-keyword section): `this.name = "sarah"` at the top level sets the
global `name` (the section compares `this == window`, so browser script
semantics apply); every other statement declares locals
(`let`/`const`/`function`/`class`) or only reads. The promise section
declares only `const sub` and calls `setTimeout`/`then`/`catch`, touching no
global binding. -/
def asyncPromiseRun (g : Globals) : Globals :=
  { g with name := some (.str "sarah") }

/-- Global effects of the array-methods snippet: none — it consists of
`let`/`const` declarations, array-method calls on those locals, and
`console.log` calls. -/
def arraySnippetRun (g : Globals) : Globals := g

/-- Global effects of `Date/script.js`: none — two `const` declarations of
`Intl.RelativeTimeFormat` instances and `console.log` calls. -/
def dateScriptRun (g : Globals) : Globals := g

/-- claim C6, counterexample: evaluating `Core js Fumdamental/script.js`
from a state in which the global `params` does not exist leaves it created
and set to `["joynager"]` — the `mybind` call's top-level-reachable
statement `params = args.slice(1)` assigns to an undeclared variable, so the
file does not leave every global binding it does not declare unchanged. -/
theorem scriptJs_creates_global_params :
    decide ((scriptJsRun ⟨none, none⟩).params =
        (Globals.mk none none).params) = false ∧
      (scriptJsRun ⟨none, none⟩).params = some [.str "joynager"] := by
  decide

/-- claim C6, amended: evaluating the repository's scripts mutates exactly
two global bindings: `Core js Fumdamental/script.js` creates the undeclared
global `params` (set to `["joynager"]` by its `mybind` call) and the
`this`-keyword section of `AsyncPromisse/asyncPromise.js` sets the global
`name` to `"sarah"`; each file leaves every other global binding unchanged,
and the array-methods and `Date` snippets touch no global at all. -/
theorem global_writes_are_params_and_name (g : Globals) :
    (scriptJsRun g).name = g.name ∧
      (scriptJsRun g).params = some [.str "joynager"] ∧
      (asyncPromiseRun g).params = g.params ∧
      (asyncPromiseRun g).name = some (.str "sarah") ∧
      arraySnippetRun g = g ∧ dateScriptRun g = g :=
  ⟨rfl, rfl, rfl, rfl, rfl, rfl⟩

/-- The nine files of the repository. -/
inductive SrcFile where
  | coreScript
  | asyncPromise
  | acidDoc
  | queryOptDoc
  | nodeNotesDoc
  | sqlIndexDoc
  | arraySnippet
  | tsNotesDoc
  | dateScript
deriving DecidableEq, Fintype

/-- One access of a file to a global variable binding. -/
inductive GAccess where
  | read (n : String)
  | write (n : String)
deriving DecidableEq

/-- Ordered global-variable accesses of each file, read off the sources.
`coreScript`: the `mybind` call writes `params`, then
`console.log(params); console.log(typeof (params))` read it.
`asyncPromise`: `this.name = "sarah"` writes `name`, then
`console.log(window.name)` and `console.log(name)` (inside `innerFunction`)
read it. Host-provided bindings (`console`, `window`, `Intl`, `Promise`,
`setTimeout`) are read by several files but written by none of them, so they
carry no inter-file state and are omitted. The Markdown documents and the
remaining scripts perform no global-variable access. -/
def accesses : SrcFile → List GAccess
  | .coreScript => [.write "params", .read "params", .read "params"]
  | .asyncPromise => [.write "name", .read "name", .read "name"]
  | _ => []

/-- The global names a file writes. -/
def writesOf (f : SrcFile) : List String :=
  (accesses f).filterMap fun a =>
    match a with
    | .write n => some n
    | .read _ => none

/-- Whether the first access in `l` to the name `n` is a read (so the value
observed is whatever an earlier evaluation left there). -/
def firstAccessIsRead (l : List GAccess) (n : String) : Bool :=
  match l with
  | [] => false
  | .read m :: rest => if m = n then true else firstAccessIsRead rest n
  | .write m :: rest => if m = n then false else firstAccessIsRead rest n

/-- File `f` observes state produced by a different file `g`: some global
binding written by `g` is read by `f` before `f` itself writes it. -/
def readsForeign (f g : SrcFile) : Bool :=
  decide (f ≠ g) && (writesOf g).any (firstAccessIsRead (accesses f))

/-- claim C7: the source files are mutually independent — no file reads a
global binding produced by another file (each file's reads of repository
globals are preceded by its own write of that binding), so each file's
observable behaviour is the same whether the other files are evaluated or
removed. -/
theorem files_mutually_independent (f g : SrcFile) :
    readsForeign f g = false := by
  revert f g; decide

/-- The `Client` class of the `this`-keyword section: `constructor() {
this.clientId = "124"; }` — `clientId` is the only field the class ever
assigns. -/
structure Client where
  clientId : JsValue
deriving DecidableEq

/-- `new Client()`: the constructor sets `this.clientId = "124"`. -/
def Client.make : Client := ⟨.str "124"⟩

/-- `getClientId() { return this.clientId; }` -/
def Client.getClientId (c : Client) : JsValue := c.clientId

/-- `changeClientId(newId) { return this.clientId = newId; }`: updates the
field and returns the value of the assignment expression, i.e. `newId`. -/
def Client.changeClientId (c : Client) (newId : JsValue) :
    JsValue × Client :=
  (newId, { c with clientId := newId })

/-- claim C8: a fresh `Client` answers `getClientId()` with `"124"`; for
every value `v`, `changeClientId(v)` returns `v` and a subsequent
`getClientId()` returns `v`; and `clientId` is the instance's only field, so
two clients with the same `clientId` are the same instance. -/
theorem client_get_set_roundtrip :
    Client.make.getClientId = .str "124" ∧
      (∀ (c : Client) (v : JsValue),
        (c.changeClientId v).1 = v ∧
          ((c.changeClientId v).2).getClientId = v) ∧
      (∀ c : Client, c = ⟨c.clientId⟩) :=
  ⟨rfl, fun _ _ => ⟨rfl, rfl⟩, fun _ => rfl⟩

/-- Value of a list of characters as a decimal numeral: `none` (the model of
`NaN`) as soon as a non-digit appears. -/
def digitsVal : List Char → Nat → Option Nat
  | [], acc => some acc
  | c :: cs, acc =>
    if c.isDigit then digitsVal cs (acc * 10 + (c.toNat - 48)) else none

/-- JavaScript `ToNumber` on a string, for the string shapes the snippet
compares: the empty string is `0`, a string of decimal digits is its value,
and any other string is `NaN` (`none`). (Full `ToNumber` also accepts signs,
whitespace, fractions and exponents; no such string occurs in the
repository.) -/
def strToNumber (s : String) : Option Int :=
  match s.data with
  | [] => some 0
  | l => (digitsVal l 0).map Int.ofNat

/-- JavaScript `ToNumber` on the primitives the array snippet compares:
numbers are themselves, numeric strings parse to their value and
non-numeric strings are `NaN` (`none`), `null` is `0`, booleans are `0`/`1`,
`undefined` and objects are `none` (`NaN` / would need `ToPrimitive`; none
occurs in the snippet). -/
def jsToNumber : JsValue → Option Int
  | .num n => some n
  | .str s => strToNumber s
  | .bool b => some (if b then 1 else 0)
  | .nullv => some 0
  | _ => none

/-- The abstract relational comparison `a > b` on primitives: two strings
compare lexicographically; otherwise both operands go through `ToNumber`
and the comparison is false when either is `NaN`. -/
def jsGt (a b : JsValue) : Bool :=
  match a, b with
  | .str s1, .str s2 => decide (s2 < s1)
  | _, _ =>
    match jsToNumber a, jsToNumber b with
    | some x, some y => decide (y < x)
    | _, _ => false

/-- `Array.prototype.find`: the first element satisfying the callback, or
`undefined` when none does. -/
def arrayFind (p : JsValue → Bool) : List JsValue → JsValue
  | [] => .undef
  | x :: xs => if p x then x else arrayFind p xs

/-- Helper for `arrayFindIndex`: scan from position `i`. -/
def arrayFindIndexAux (p : JsValue → Bool) (i : Int) :
    List JsValue → Int
  | [] => -1
  | x :: xs => if p x then i else arrayFindIndexAux p (i + 1) xs

/-- `Array.prototype.findIndex`: the index of the first element satisfying
the callback, or `-1` when none does. -/
def arrayFindIndex (p : JsValue → Bool) (l : List JsValue) : Int :=
  arrayFindIndexAux p 0 l

/-- The array `list = [1, "13", 13, 22, 32, 22]` of the array-methods
snippet. -/
def demoList : List JsValue :=
  [.num 1, .str "13", .num 13, .num 22, .num 32, .num 22]

/-- claim C9: on `[1, "13", 13, 22, 32, 22]`, `find(ele => ele > 10)`
returns the string `"13"` (the comparison coerces the string to a number,
and `"13"` at index 1 is the first hit, before the number `13`),
`findIndex` with the same predicate returns `1`, and
`findIndex(ele => ele > 100)` returns `-1` since no element exceeds 100. -/
theorem find_demo_results :
    arrayFind (fun e => jsGt e (.num 10)) demoList = .str "13" ∧
      arrayFindIndex (fun e => jsGt e (.num 10)) demoList = 1 ∧
      arrayFindIndex (fun e => jsGt e (.num 100)) demoList = -1 := by
  refine ⟨?_, ?_, ?_⟩ <;> decide

/-- An element of a (possibly nested) JavaScript array of numbers, as in the
`flat` demonstration. -/
inductive JsElem where
  | val (n : Int)
  | arr (elems : List JsElem)

/-- `Array.prototype.flat(depth)`: each sub-array element is replaced by its
own flattening while `depth > 0`; at depth `0` elements are copied as they
are. -/
def flatList : Nat → List JsElem → List JsElem
  | _, [] => []
  | d, .val n :: rest => .val n :: flatList d rest
  | 0, .arr a :: rest => .arr a :: flatList 0 rest
  | d + 1, .arr a :: rest => flatList d a ++ flatList (d + 1) rest
termination_by _d l => sizeOf l

/-- `Array.prototype.flat()` with no argument: the default depth is 1. -/
def flatDefault (l : List JsElem) : List JsElem := flatList 1 l

/-- The array `arr = [1, 2, 3, [4, 5, [6, 7, [8, 9, [10]]]]]` of the
array-methods snippet. -/
def nestedArr : List JsElem :=
  [.val 1, .val 2, .val 3,
    .arr [.val 4, .val 5,
      .arr [.val 6, .val 7, .arr [.val 8, .val 9, .arr [.val 10]]]]]

/-- claim C10: `arr.flat()` removes exactly one nesting level, giving
`[1, 2, 3, 4, 5, [6, 7, [8, 9, [10]]]]`, while `arr.flat(999)` fully
flattens `arr` to `[1, 2, 3, 4, 5, 6, 7, 8, 9, 10]`. -/
theorem flat_demo_results :
    flatDefault nestedArr =
      [.val 1, .val 2, .val 3, .val 4, .val 5,
        .arr [.val 6, .val 7, .arr [.val 8, .val 9, .arr [.val 10]]]] ∧
      flatList 999 nestedArr =
        [.val 1, .val 2, .val 3, .val 4, .val 5, .val 6, .val 7, .val 8,
          .val 9, .val 10] := by
  constructor <;> simp [flatDefault, flatList, nestedArr]
